import Mathlib

/-!
Shallow embedding of the FarmCo-Pilot recommendation engine
(`Reco_engine/Reco_Engine_v2/engine/recommendation_engine.py`, with the
duplicated v1 variant `Reco_engine/Reco_Engine_v1/engine/recommendation_engine.py`
embedded alongside for the equivalence claim).

Modelling conventions:
- Python floats are modelled by `ℚ`; `NaN` is not representable (noted at each
  definition whose Python source checks `pd.isna`).
- Python `str` is `String`, Python lists are `List`.
- A Python `ZeroDivisionError` raised inside the v2 scorer's `try` block is
  modelled explicitly: the raising condition is computed and the `except`
  branch value (0.0) is returned when it holds.
- `datetime.now()` and file I/O are abstracted (fields derived from them carry
  a fixed neutral value; saving to disk is dropped from the batch loop model).
-/

namespace FarmCoPilot

/-- Dataclass `EnhancedFarmProfile` (v2 engine, lines 33-78).  All fields of the
Python dataclass are present except `temp_variability`: that field is the pandas
sample standard deviation (a square root, irrational in general and unused by
every modelled operation), so the model stores the sample *variance* in the slot
of the same name; no claim reads it. -/
structure EnhancedFarmProfile where
  farm_id : String
  lat : ℚ
  lon : ℚ
  total_rainfall : ℚ
  rainy_days : ℕ
  avg_temp : ℚ
  avg_humidity : ℚ
  kharif_rainfall : ℚ
  rabi_rainfall : ℚ
  ndvi_mean : ℚ
  evi_mean : ℚ
  lai_mean : ℚ
  vegetation_health : String
  soil_ph_avg : ℚ
  clay_pct_avg : ℚ
  sand_pct_avg : ℚ
  silt_pct_avg : ℚ
  soc_avg : ℚ
  cec_avg : ℚ
  texture : String
  nutrient_status : String
  ph_status : String
  heat_stress_days : ℕ
  drought_stress_days : ℕ
  temp_variability : ℚ
  recent_rainfall : ℚ
  recent_avg_temp : ℚ
  recent_avg_humidity : ℚ
  analysis_date : String
  detected_zone : String

/-- One variety record of the catalog, with the keys the engine reads
(`id`, `name`, `category`, `zones`, `carbon_potential`, `market_value`,
`ph_tolerance`, `rainfall_range`, `temp_range`, `water_requirement`,
`soil_preference`).  Ranges are `[lo, hi]` pairs. -/
structure Variety where
  id : String
  name : String
  category : String
  zones : List String
  carbon_potential : ℚ
  market_value : String
  ph_tolerance : ℚ × ℚ
  rainfall_range : ℚ × ℚ
  temp_range : ℚ × ℚ
  water_requirement : String
  soil_preference : String

/-- Weight table `_initialize_enhanced_rules` (identical literals in v1 lines
468-494 and v2 lines 504-530). -/
structure RecommendationRules where
  zone_exact_match : ℚ
  zone_adjacent_zone : ℚ
  zone_climate_similarity : ℚ
  climate_rainfall_match : ℚ
  climate_temperature_match : ℚ
  climate_humidity_tolerance : ℚ
  soil_ph_match : ℚ
  soil_texture_match : ℚ
  soil_nutrient_match : ℚ
  veg_ndvi_bonus : ℚ
  veg_stress_penalty : ℚ
  econ_market_value : ℚ
  econ_carbon_potential : ℚ

/-- `_initialize_enhanced_rules` of the v2 engine (lines 504-530). -/
def recommendation_rules_v2 : RecommendationRules where
  zone_exact_match := 0.50
  zone_adjacent_zone := 0.20
  zone_climate_similarity := 0.05
  climate_rainfall_match := 0.25
  climate_temperature_match := 0.20
  climate_humidity_tolerance := 0.10
  soil_ph_match := 0.25
  soil_texture_match := 0.15
  soil_nutrient_match := 0.10
  veg_ndvi_bonus := 0.05
  veg_stress_penalty := 0.10
  econ_market_value := 0.05
  econ_carbon_potential := 0.10

/-- `_initialize_enhanced_rules` of the v1 engine (lines 468-494); the literal
values coincide with the v2 table. -/
def recommendation_rules_v1 : RecommendationRules where
  zone_exact_match := 0.50
  zone_adjacent_zone := 0.20
  zone_climate_similarity := 0.05
  climate_rainfall_match := 0.25
  climate_temperature_match := 0.20
  climate_humidity_tolerance := 0.10
  soil_ph_match := 0.25
  soil_texture_match := 0.15
  soil_nutrient_match := 0.10
  veg_ndvi_bonus := 0.05
  veg_stress_penalty := 0.10
  econ_market_value := 0.05
  econ_carbon_potential := 0.10

/-- Helper for Python's substring operator on strings: does the needle occur at
the head of the haystack? -/
def charsLeadWith : List Char → List Char → Bool
  | [], _ => true
  | _ :: _, [] => false
  | c :: cs, d :: ds => c == d && charsLeadWith cs ds

/-- Helper for Python's substring operator: does the needle occur contiguously
anywhere in the haystack? -/
def charsContain : List Char → List Char → Bool
  | needle, [] => needle.isEmpty
  | needle, d :: ds => charsLeadWith needle (d :: ds) || charsContain needle ds

/-- Python's `needle in haystack` on strings (contiguous substring test,
case-sensitive), used by the texture bonus
`variety["soil_preference"] in farm_profile.texture`. -/
def strContains (needle haystack : String) : Bool :=
  charsContain needle.toList haystack.toList

/-- One in-range/distance-penalty block of `calculate_enhanced_suitability_score`
(used verbatim for rainfall, v2 lines 870-878, and temperature, lines 886-893):
match is 1.0 inside the range, otherwise `max 0 (1 - distance)` where the
distance is relative to the violated bound. -/
def range_match (lo hi v : ℚ) : ℚ :=
  if lo ≤ v ∧ v ≤ hi then 1
  else if v < lo then max 0 (1 - (lo - v) / lo)
  else max 0 (1 - (v - hi) / hi)

/-- The pH variant of the distance block (v2 lines 906-913): the out-of-range
distance is doubled before subtracting from 1 (`pH is critical`). -/
def ph_range_match (lo hi v : ℚ) : ℚ :=
  if lo ≤ v ∧ v ≤ hi then 1
  else if v < lo then max 0 (1 - (lo - v) / lo * 2)
  else max 0 (1 - (v - hi) / hi * 2)

/-- Raising condition of one distance block under Python float semantics: the
division `(bound - value)/bound` (resp. `(value - bound)/bound`) raises
`ZeroDivisionError` exactly when the value is out of range on the side whose
bound is 0. -/
def range_div_raises (lo hi v : ℚ) : Bool :=
  if lo ≤ v ∧ v ≤ hi then false
  else if v < lo then lo == 0
  else hi == 0

/-- Condition under which the body of `calculate_enhanced_suitability_score`
raises `ZeroDivisionError` (one of the three distance blocks divides by a zero
bound). -/
def suitability_score_raises (fp : EnhancedFarmProfile) (v : Variety) : Bool :=
  range_div_raises v.rainfall_range.1 v.rainfall_range.2 fp.total_rainfall ||
  range_div_raises v.temp_range.1 v.temp_range.2 fp.avg_temp ||
  range_div_raises v.ph_tolerance.1 v.ph_tolerance.2 fp.soil_ph_avg

/-- Shared body of `calculate_enhanced_suitability_score` (identical statement
lists in v1 lines 690-783 and v2 lines 847-946), parametrised by the engine's
weight table: additive zone + climate + soil terms, vegetation bonus, stress
penalty, economic bonuses, then clamped by `max(0.0, min(1.0, total_score))`. -/
def suitability_score_body (rules : RecommendationRules)
    (fp : EnhancedFarmProfile) (v : Variety) : ℚ :=
  let zone_score : ℚ :=
    if fp.detected_zone ∈ v.zones then rules.zone_exact_match
    else rules.zone_climate_similarity
  let rainfall_match := range_match v.rainfall_range.1 v.rainfall_range.2 fp.total_rainfall
  let temp_match := range_match v.temp_range.1 v.temp_range.2 fp.avg_temp
  let climate_score :=
    rainfall_match * rules.climate_rainfall_match + temp_match * rules.climate_temperature_match
  let ph_match := ph_range_match v.ph_tolerance.1 v.ph_tolerance.2 fp.soil_ph_avg
  let soil_score :=
    ph_match * rules.soil_ph_match
    + (if strContains v.soil_preference fp.texture then rules.soil_texture_match else 0)
    + (if fp.nutrient_status ∈ ["Good", "Excellent"] ∧ v.market_value = "Premium" then
        rules.soil_nutrient_match else 0)
  let total_score :=
    zone_score + climate_score + soil_score
    + (if fp.vegetation_health ∈ ["Good", "Excellent"] then rules.veg_ndvi_bonus else 0)
    - (if fp.heat_stress_days > 60 ∨ fp.drought_stress_days > 180 then
        rules.veg_stress_penalty else 0)
    + (if v.market_value = "Premium" then rules.econ_market_value else 0)
    + (if v.carbon_potential > 5 then rules.econ_carbon_potential else 0)
  max 0 (min 1 total_score)

/-- `calculate_enhanced_suitability_score` of the v2 engine (lines 847-946): the
body runs inside `try`; any exception (under Python float semantics, a
`ZeroDivisionError` from a zero range bound) is caught and 0.0 returned. -/
def calculate_enhanced_suitability_score_v2 (fp : EnhancedFarmProfile) (v : Variety) : ℚ :=
  if suitability_score_raises fp v then 0
  else suitability_score_body recommendation_rules_v2 fp v

/-- `calculate_enhanced_suitability_score` of the v1 engine (lines 690-783):
the same statement list with no `try`/`except` around it, reading the v1 weight
table.  (On a zero range bound the Python v1 function propagates
`ZeroDivisionError`; the total `ℚ` model is only used under nonzero-bound
hypotheses.) -/
def calculate_enhanced_suitability_score_v1 (fp : EnhancedFarmProfile) (v : Variety) : ℚ :=
  suitability_score_body recommendation_rules_v1 fp v

/-- `_fix_soil_ph_value` (v2 lines 651-676): non-positive raw values (the
`pd.isna(...) or raw <= 0` guard; `NaN` is not representable in `ℚ`) default to
neutral 7.0; a raw value above 14 is divided by 100 when above 100, else by 10;
values in (0, 14] pass through. -/
def fix_soil_ph_value (raw_ph_value : ℚ) : ℚ :=
  if raw_ph_value ≤ 0 then 7
  else if raw_ph_value > 14 then
    if raw_ph_value > 100 then raw_ph_value / 100
    else raw_ph_value / 10
  else raw_ph_value

/-- `_classify_ph_status` (v2 lines 678-693). -/
def classify_ph_status (ph : ℚ) : String :=
  if ph < 5.5 then "Very Acidic"
  else if ph < 6.0 then "Acidic"
  else if ph < 6.8 then "Slightly Acidic"
  else if ph ≤ 7.2 then "Neutral"
  else if ph ≤ 7.8 then "Slightly Alkaline"
  else if ph ≤ 8.5 then "Alkaline"
  else "Very Alkaline"

/-- One zone record of `_initialize_complete_zone_mappings` (v2 lines 334-502):
id, display name, bounding box, expected climate ranges, states, and the
`characteristics` sub-dict. -/
structure Zone where
  id : String
  name : String
  lat_range : ℚ × ℚ
  lon_range : ℚ × ℚ
  rainfall_range : ℚ × ℚ
  temp_range : ℚ × ℚ
  states : List String
  climate_type : String
  elevation : String
  major_crops : List String

/-- Zone 1 of `_initialize_complete_zone_mappings` (v2 lines 337-347). -/
def zone_1 : Zone :=
  ⟨"Zone_1_Western_Himalayan", "Western Himalayan Region", (28, 37), (74, 80),
   (1000, 2500), (5, 25), ["Jammu & Kashmir", "Himachal Pradesh", "Uttarakhand"],
   "Temperate to alpine", "High", ["Apple", "Rice", "Wheat", "Maize"]⟩

/-- Zone 2 of `_initialize_complete_zone_mappings` (v2 lines 348-358). -/
def zone_2 : Zone :=
  ⟨"Zone_2_Eastern_Himalayan", "Eastern Himalayan Region", (26, 30), (88, 98),
   (1500, 3000), (8, 28), ["Sikkim", "Darjeeling", "Arunachal Pradesh"],
   "Humid temperate", "High", ["Tea", "Rice", "Maize", "Ginger"]⟩

/-- Zone 3 of `_initialize_complete_zone_mappings` (v2 lines 359-369). -/
def zone_3 : Zone :=
  ⟨"Zone_3_Lower_Gangetic", "Lower Gangetic Plains Region", (22, 26), (86, 92),
   (1200, 1800), (15, 38), ["West Bengal", "Bihar"],
   "Humid subtropical", "Low", ["Rice", "Jute", "Sugarcane", "Potato"]⟩

/-- Zone 4 of `_initialize_complete_zone_mappings` (v2 lines 370-380). -/
def zone_4 : Zone :=
  ⟨"Zone_4_Middle_Gangetic", "Middle Gangetic Plains Region", (24, 27), (82, 88),
   (1000, 1500), (12, 40), ["Eastern UP", "Bihar"],
   "Humid subtropical", "Low", ["Rice", "Wheat", "Sugarcane", "Maize"]⟩

/-- Zone 5 of `_initialize_complete_zone_mappings` (v2 lines 381-391). -/
def zone_5 : Zone :=
  ⟨"Zone_5_Upper_Gangetic", "Upper Gangetic Plains Region", (26, 31), (77, 84),
   (600, 1200), (8, 42), ["Western UP", "Uttarakhand", "Delhi"],
   "Semi-arid to sub-humid", "Low", ["Wheat", "Rice", "Sugarcane", "Cotton"]⟩

/-- Zone 6 of `_initialize_complete_zone_mappings` (v2 lines 392-402). -/
def zone_6 : Zone :=
  ⟨"Zone_6_Trans_Gangetic", "Trans-Gangetic Plains Region", (28, 33), (74, 78),
   (300, 800), (2, 45), ["Punjab", "Haryana", "Delhi", "Rajasthan"],
   "Semi-arid", "Low", ["Wheat", "Rice", "Cotton", "Mustard"]⟩

/-- Zone 7 of `_initialize_complete_zone_mappings` (v2 lines 403-413). -/
def zone_7 : Zone :=
  ⟨"Zone_7_Eastern_Plateau", "Eastern Plateau and Hills Region", (21, 25), (82, 88),
   (1000, 1600), (15, 40), ["Jharkhand", "Chhattisgarh", "Madhya Pradesh", "Odisha"],
   "Sub-humid", "Medium", ["Rice", "Maize", "Pulses", "Millets"]⟩

/-- Zone 8 of `_initialize_complete_zone_mappings` (v2 lines 414-424). -/
def zone_8 : Zone :=
  ⟨"Zone_8_Central_Plateau", "Central Plateau and Hills Region", (21, 26), (74, 82),
   (800, 1400), (12, 42), ["Madhya Pradesh", "Rajasthan", "Uttar Pradesh"],
   "Sub-humid to semi-arid", "Medium", ["Soybean", "Wheat", "Cotton", "Sugarcane"]⟩

/-- Zone 9 of `_initialize_complete_zone_mappings` (v2 lines 425-435). -/
def zone_9 : Zone :=
  ⟨"Zone_9_Western_Plateau", "Western Plateau and Hills Region", (17, 24), (72, 77),
   (500, 1200), (15, 40), ["Maharashtra", "Madhya Pradesh", "Rajasthan"],
   "Semi-arid", "Medium", ["Cotton", "Sorghum", "Sugarcane", "Onion"]⟩

/-- Zone 10 of `_initialize_complete_zone_mappings` (v2 lines 436-446). -/
def zone_10 : Zone :=
  ⟨"Zone_10_Southern_Plateau", "Southern Plateau and Hills Region", (12, 20), (74, 80),
   (600, 1400), (20, 35), ["Karnataka", "Andhra Pradesh", "Telangana", "Tamil Nadu"],
   "Semi-arid to sub-humid", "Medium", ["Rice", "Cotton", "Sugarcane", "Groundnut"]⟩

/-- Zone 11 of `_initialize_complete_zone_mappings` (v2 lines 447-457). -/
def zone_11 : Zone :=
  ⟨"Zone_11_East_Coast", "East Coast Plains and Hills Region", (17, 22), (82, 87),
   (1000, 1400), (22, 38), ["Odisha", "Andhra Pradesh", "Tamil Nadu"],
   "Sub-humid coastal", "Low", ["Rice", "Sugarcane", "Coconut", "Cashew"]⟩

/-- Zone 12 of `_initialize_complete_zone_mappings` (v2 lines 458-468). -/
def zone_12 : Zone :=
  ⟨"Zone_12_West_Coast", "West Coast Plains and Ghats Region", (8, 17), (72, 77),
   (2000, 4000), (22, 32), ["Kerala", "Karnataka", "Goa", "Maharashtra"],
   "Humid tropical", "Low", ["Rice", "Coconut", "Spices", "Rubber"]⟩

/-- Zone 13 of `_initialize_complete_zone_mappings` (v2 lines 469-479). -/
def zone_13 : Zone :=
  ⟨"Zone_13_Gujarat", "Gujarat Plains and Hills Region", (20, 25), (68, 75),
   (400, 1200), (15, 42), ["Gujarat", "Rajasthan"],
   "Semi-arid to arid", "Low to medium", ["Cotton", "Groundnut", "Castor", "Wheat"]⟩

/-- Zone 14 of `_initialize_complete_zone_mappings` (v2 lines 480-490). -/
def zone_14 : Zone :=
  ⟨"Zone_14_Western_Dry", "Western Dry Region", (24, 30), (69, 76),
   (100, 500), (5, 48), ["Rajasthan", "Gujarat"],
   "Arid to semi-arid", "Low", ["Pearl Millet", "Cluster Bean", "Moth Bean", "Sesame"]⟩

/-- Zone 15 of `_initialize_complete_zone_mappings` (v2 lines 491-501). -/
def zone_15 : Zone :=
  ⟨"Zone_15_Island", "Island Region", (6, 14), (71, 94),
   (1500, 3500), (24, 32), ["Andaman & Nicobar", "Lakshadweep"],
   "Tropical maritime", "Low", ["Coconut", "Rice", "Spices", "Fruits"]⟩

/-- `_initialize_complete_zone_mappings` (v2 lines 334-502), in the dict's
insertion order, which is the Python iteration order. -/
def complete_zone_mappings : List Zone :=
  [zone_1, zone_2, zone_3, zone_4, zone_5, zone_6, zone_7, zone_8, zone_9,
   zone_10, zone_11, zone_12, zone_13, zone_14, zone_15]

/-! Projection lemmas for the zone records, so that proofs about zone
detection never need to unfold the full ten-field literals. -/

@[simp] lemma zone_1_id : zone_1.id = "Zone_1_Western_Himalayan" := rfl

@[simp] lemma zone_1_lat_range : zone_1.lat_range = (28, 37) := rfl

@[simp] lemma zone_1_lon_range : zone_1.lon_range = (74, 80) := rfl

@[simp] lemma zone_2_id : zone_2.id = "Zone_2_Eastern_Himalayan" := rfl

@[simp] lemma zone_2_lat_range : zone_2.lat_range = (26, 30) := rfl

@[simp] lemma zone_2_lon_range : zone_2.lon_range = (88, 98) := rfl

@[simp] lemma zone_3_id : zone_3.id = "Zone_3_Lower_Gangetic" := rfl

@[simp] lemma zone_3_lat_range : zone_3.lat_range = (22, 26) := rfl

@[simp] lemma zone_3_lon_range : zone_3.lon_range = (86, 92) := rfl

@[simp] lemma zone_4_id : zone_4.id = "Zone_4_Middle_Gangetic" := rfl

@[simp] lemma zone_4_lat_range : zone_4.lat_range = (24, 27) := rfl

@[simp] lemma zone_4_lon_range : zone_4.lon_range = (82, 88) := rfl

@[simp] lemma zone_5_id : zone_5.id = "Zone_5_Upper_Gangetic" := rfl

@[simp] lemma zone_5_lat_range : zone_5.lat_range = (26, 31) := rfl

@[simp] lemma zone_5_lon_range : zone_5.lon_range = (77, 84) := rfl

@[simp] lemma zone_6_id : zone_6.id = "Zone_6_Trans_Gangetic" := rfl

@[simp] lemma zone_6_lat_range : zone_6.lat_range = (28, 33) := rfl

@[simp] lemma zone_6_lon_range : zone_6.lon_range = (74, 78) := rfl

@[simp] lemma zone_7_id : zone_7.id = "Zone_7_Eastern_Plateau" := rfl

@[simp] lemma zone_7_lat_range : zone_7.lat_range = (21, 25) := rfl

@[simp] lemma zone_7_lon_range : zone_7.lon_range = (82, 88) := rfl

@[simp] lemma zone_8_id : zone_8.id = "Zone_8_Central_Plateau" := rfl

@[simp] lemma zone_8_lat_range : zone_8.lat_range = (21, 26) := rfl

@[simp] lemma zone_8_lon_range : zone_8.lon_range = (74, 82) := rfl

@[simp] lemma zone_9_id : zone_9.id = "Zone_9_Western_Plateau" := rfl

@[simp] lemma zone_9_lat_range : zone_9.lat_range = (17, 24) := rfl

@[simp] lemma zone_9_lon_range : zone_9.lon_range = (72, 77) := rfl

@[simp] lemma zone_10_id : zone_10.id = "Zone_10_Southern_Plateau" := rfl

@[simp] lemma zone_10_lat_range : zone_10.lat_range = (12, 20) := rfl

@[simp] lemma zone_10_lon_range : zone_10.lon_range = (74, 80) := rfl

@[simp] lemma zone_11_id : zone_11.id = "Zone_11_East_Coast" := rfl

@[simp] lemma zone_11_lat_range : zone_11.lat_range = (17, 22) := rfl

@[simp] lemma zone_11_lon_range : zone_11.lon_range = (82, 87) := rfl

@[simp] lemma zone_12_id : zone_12.id = "Zone_12_West_Coast" := rfl

@[simp] lemma zone_12_lat_range : zone_12.lat_range = (8, 17) := rfl

@[simp] lemma zone_12_lon_range : zone_12.lon_range = (72, 77) := rfl

@[simp] lemma zone_13_id : zone_13.id = "Zone_13_Gujarat" := rfl

@[simp] lemma zone_13_lat_range : zone_13.lat_range = (20, 25) := rfl

@[simp] lemma zone_13_lon_range : zone_13.lon_range = (68, 75) := rfl

@[simp] lemma zone_14_id : zone_14.id = "Zone_14_Western_Dry" := rfl

@[simp] lemma zone_14_lat_range : zone_14.lat_range = (24, 30) := rfl

@[simp] lemma zone_14_lon_range : zone_14.lon_range = (69, 76) := rfl

@[simp] lemma zone_15_id : zone_15.id = "Zone_15_Island" := rfl

@[simp] lemma zone_15_lat_range : zone_15.lat_range = (6, 14) := rfl

@[simp] lemma zone_15_lon_range : zone_15.lon_range = (71, 94) := rfl

/-- Squared euclidean distance from a point to a zone's bounding-box center.
The Python code compares `score = 1/(1 + sqrt(d2))` values (and, in the
fallback, `sqrt(d2)` values); since `x ↦ 1/(1+sqrt x)` is strictly decreasing
and `sqrt` strictly increasing on nonnegatives, every comparison in
`detect_zone_from_coordinates` is equivalent to the corresponding strict
comparison of squared distances, which is what the model performs (keeping the
computation inside `ℚ`). -/
def zone_center_dist_sq (z : Zone) (lat lon : ℚ) : ℚ :=
  let lat_center := (z.lat_range.1 + z.lat_range.2) / 2
  let lon_center := (z.lon_range.1 + z.lon_range.2) / 2
  (lat - lat_center) ^ 2 + (lon - lon_center) ^ 2

/-- Containment test `lat_min <= lat <= lat_max and lon_min <= lon <= lon_max`
(v2 line 613). -/
def zone_contains (z : Zone) (lat lon : ℚ) : Bool :=
  decide (z.lat_range.1 ≤ lat ∧ lat ≤ z.lat_range.2 ∧
          z.lon_range.1 ≤ lon ∧ lon ≤ z.lon_range.2)

/-- First loop of `detect_zone_from_coordinates` (v2 lines 608-624): over the
containing zones, keep the best score `1/(1+distance)`; `best_score` starts at
0 so the first containing zone always wins, and a later zone replaces the
best only on a strictly higher score, i.e. a strictly smaller (squared)
distance.  State: `none` for `best_match = None`, else the best id with its
squared distance. -/
def detect_best_match (lat lon : ℚ) :
    List Zone → Option (String × ℚ) → Option (String × ℚ)
  | [], best => best
  | z :: zs, best =>
    if zone_contains z lat lon then
      let d2 := zone_center_dist_sq z lat lon
      match best with
      | none => detect_best_match lat lon zs (some (z.id, d2))
      | some (bid, bd2) =>
        if d2 < bd2 then detect_best_match lat lon zs (some (z.id, d2))
        else detect_best_match lat lon zs (some (bid, bd2))
    else detect_best_match lat lon zs best

/-- Fallback loop of `detect_zone_from_coordinates` (v2 lines 632-646): closest
zone center over all zones, strict improvement (`distance < min_distance`,
starting from infinity, modelled by `none`). -/
def detect_closest_zone (lat lon : ℚ) :
    List Zone → Option (String × ℚ) → Option (String × ℚ)
  | [], best => best
  | z :: zs, best =>
    let d2 := zone_center_dist_sq z lat lon
    match best with
    | none => detect_closest_zone lat lon zs (some (z.id, d2))
    | some (bid, bd2) =>
      if d2 < bd2 then detect_closest_zone lat lon zs (some (z.id, d2))
      else detect_closest_zone lat lon zs (some (bid, bd2))

/-- `detect_zone_from_coordinates` (v2 lines 601-649): best containing zone,
else closest zone center, else the literal fallback
`"Zone_10_Southern_Plateau"` (reached exactly when the catalog is empty). -/
def detect_zone_from_coordinates (zones : List Zone) (lat lon : ℚ) : String :=
  match detect_best_match lat lon zones none with
  | some (zid, _) => zid
  | none =>
    match detect_closest_zone lat lon zones none with
    | some (zid, _) => zid
    | none => "Zone_10_Southern_Plateau"

/-- One row of the satellite data frame as the profile builder reads it
(`farm_id`, `data_type` discriminator, and the three vegetation indices). -/
structure SatelliteRow where
  farm_id : String
  data_type : String
  NDVI : ℚ
  EVI : ℚ
  LAI : ℚ

/-- Arithmetic mean as pandas computes it over a nonempty column. -/
def listMean (l : List ℚ) : ℚ := l.sum / l.length

/-- Vegetation block of `create_farm_profile_from_data` (v2 lines 753-760),
applied to the rows already filtered to the farm and to
`data_type == "vegetation"`: if the frame is empty the three means default to
(0.2, 0.2, 0.5); otherwise rows with `NDVI < 1.0` are kept (`NDVI ≥ 1.0`
dropped as outliers) and each mean falls back to its default when no clean row
remains. -/
def vegetation_stats (rows : List SatelliteRow) : ℚ × ℚ × ℚ :=
  if rows.isEmpty then (0.2, 0.2, 0.5)
  else
    let clean := rows.filter (fun r => r.NDVI < 1)
    (if clean.length > 0 then listMean (clean.map (·.NDVI)) else 0.2,
     if clean.length > 0 then listMean (clean.map (·.EVI)) else 0.2,
     if clean.length > 0 then listMean (clean.map (·.LAI)) else 0.5)

/-- Vegetation-health classification of `create_farm_profile_from_data`
(v2 lines 763-770). -/
def vegetation_health_class (ndvi_mean : ℚ) : String :=
  if ndvi_mean > 0.6 then "Excellent"
  else if ndvi_mean > 0.4 then "Good"
  else if ndvi_mean > 0.2 then "Fair"
  else "Poor"

/-- Python's banker's rounding (`round` half-to-even) to an integer. -/
def roundHalfToEven (x : ℚ) : ℤ :=
  let n := ⌊x⌋
  let r := x - n
  if r < 1/2 then n
  else if r > 1/2 then n + 1
  else if n % 2 = 0 then n else n + 1

/-- Python's `round(x, 3)` under exact-rational semantics. -/
def pyRound3 (x : ℚ) : ℚ := (roundHalfToEven (x * 1000) : ℚ) / 1000

/-- Python's `round(x, 4)` under exact-rational semantics. -/
def pyRound4 (x : ℚ) : ℚ := (roundHalfToEven (x * 10000) : ℚ) / 10000

/-- One per-category recommendation record as built in `generate_recommendations`
(v2 lines 1018-1032), with the keys later logic reads.  `catalog_index` is a
model-only ghost field recording the variety's position in the category's
catalog list (the Python loop's iteration position); it is needed to state the
tie-breaking order of the stable sort and is read by no modelled operation. -/
structure Recommendation where
  variety_id : String
  variety_name : String
  category : String
  suitability_score : ℚ
  carbon_potential : ℚ
  market_value : String
  confidence_level : ℚ
  catalog_index : ℕ

/-- Scoring/filter loop of `generate_recommendations` for one category
(v2 lines 1012-1035): each variety is scored, and those with
`suitability_score >= 0.70` become recommendation records storing the score
rounded to 3 places and the confidence `score * 0.85` rounded to 4 places. -/
def score_category (fp : EnhancedFarmProfile) (category_name : String) :
    List Variety → ℕ → List Recommendation
  | [], _ => []
  | v :: vs, i =>
    let suitability_score := calculate_enhanced_suitability_score_v2 fp v
    let confidence_level := suitability_score * 0.85
    if suitability_score ≥ 0.70 then
      { variety_id := v.id
        variety_name := v.name
        category := category_name
        suitability_score := pyRound3 suitability_score
        carbon_potential := v.carbon_potential
        market_value := v.market_value
        confidence_level := pyRound4 confidence_level
        catalog_index := i } :: score_category fp category_name vs (i + 1)
    else score_category fp category_name vs (i + 1)

/-- Stable insertion step for descending order on `suitability_score`: the new
element `x` (which precedes every element of the already-sorted tail in the
original list) moves past exactly the elements with strictly greater score. -/
def insert_desc (x : Recommendation) : List Recommendation → List Recommendation
  | [] => [x]
  | y :: ys =>
    if x.suitability_score < y.suitability_score then y :: insert_desc x ys
    else x :: y :: ys

/-- Python's `list.sort(key=lambda x: x["suitability_score"], reverse=True)`
(v2 line 1038): a stable sort, descending on the stored (rounded) score, equal
scores keeping their original relative order.  Stable insertion sort realises
exactly this specification. -/
def sort_desc : List Recommendation → List Recommendation
  | [] => []
  | a :: l => insert_desc a (sort_desc l)

/-- Per-category pipeline of `generate_recommendations` (v2 lines 1012-1039):
score + filter, stable descending sort, truncate to the top `top_n`. -/
def category_recommendations (fp : EnhancedFarmProfile) (category_name : String)
    (varieties : List Variety) (top_n : ℕ) : List Recommendation :=
  (sort_desc (score_category fp category_name varieties 0)).take top_n

/-- The engine's `self.database` (three category lists, as
`_initialize_complete_database` returns them). -/
structure VarietyDatabase where
  rice_varieties : List Variety
  agroforestry_species : List Variety
  crop_varieties : List Variety

/-- The per-category recommendation lists of a `generate_recommendations`
result (the `recommendations` dict, keys `rice` / `agroforestry` / `crops`). -/
structure RecommendationSet where
  rice : List Recommendation
  agroforestry : List Recommendation
  crops : List Recommendation

/-- `generate_recommendations` (v2 lines 983-1066), restricted to the
per-category lists it returns (the category mapping sends `rice_varieties` to
`rice`, `agroforestry_species` to `agroforestry`, `crop_varieties` to
`crops`). -/
def generate_recommendations (db : VarietyDatabase) (fp : EnhancedFarmProfile)
    (top_n : ℕ) : RecommendationSet where
  rice := category_recommendations fp "rice" db.rice_varieties top_n
  agroforestry := category_recommendations fp "agroforestry" db.agroforestry_species top_n
  crops := category_recommendations fp "crops" db.crop_varieties top_n

/-- `_calculate_realistic_carbon_potential` (v2 lines 948-981): blended carbon
from the top rice (weight 0.4), top crop (0.3), second crop (0.2) and top
agroforestry entry (0.1), each contributing only when present; credits are
carbon × 0.85 and revenue credits × 25.0. -/
def calculate_realistic_carbon_potential (recs : RecommendationSet) : ℚ × ℚ × ℚ :=
  let c0 : ℚ := 0
  let c1 := match recs.rice with
    | [] => c0
    | top_rice :: _ => c0 + top_rice.carbon_potential * 0.4
  let c2 := match recs.crops with
    | [] => c1
    | top_crop :: _ => c1 + top_crop.carbon_potential * 0.3
  let c3 := match recs.crops with
    | _ :: second_crop :: _ => c2 + second_crop.carbon_potential * 0.2
    | _ => c2
  let realistic_carbon := match recs.agroforestry with
    | [] => c3
    | top_agro :: _ => c3 + top_agro.carbon_potential * 0.1
  let estimated_credits := realistic_carbon * 0.85
  let estimated_revenue := estimated_credits * 25.0
  (realistic_carbon, estimated_credits, estimated_revenue)

/-- One row of the weather data frame (`farm_id, lat, lon, date, precip, temp,
temp_max, temp_min, humidity`).  The `month` field carries
`pd.to_datetime(date).dt.month` (calendar-date parsing is abstracted into the
row). -/
structure WeatherRow where
  farm_id : String
  lat : ℚ
  lon : ℚ
  month : ℕ
  precip : ℚ
  temp : ℚ
  temp_max : ℚ
  temp_min : ℚ
  humidity : ℚ

/-- One row of the soil data frame, with the columns the builder reads (the
`'col' in farm_soil.columns` fallbacks fire only when a column is absent from
the whole frame; the model takes all columns present). -/
structure SoilRow where
  farm_id : String
  phh2o_avg : ℚ
  clay_pct_avg : ℚ
  sand_pct_avg : ℚ
  silt_pct_avg : ℚ
  soc_avg : ℚ
  cec_avg : ℚ
  texture : String
  nutrient_status : String

/-- Sample variance (pandas `.std()` squared, `ddof = 1`).  The builder's
`temp_variability` is the pandas sample standard deviation; its square root
leaves `ℚ`, so the model stores this variance (the std is its determined
image; no modelled claim reads the field).  pandas yields `NaN` for a
single-row series; that unrepresentable value is modelled as 0. -/
def sample_variance (l : List ℚ) : ℚ :=
  if l.length ≤ 1 then 0
  else (l.map (fun x => (x - listMean l) ^ 2)).sum / ((l.length : ℚ) - 1)

/-- Result of the soil block of `create_farm_profile_from_data` (v2 lines
775-801): corrected pH and its class, the texture/composition columns, with
the documented defaults when the farm has no soil row. -/
structure SoilBlock where
  soil_ph_avg : ℚ
  ph_status : String
  clay_pct_avg : ℚ
  sand_pct_avg : ℚ
  silt_pct_avg : ℚ
  soc_avg : ℚ
  cec_avg : ℚ
  texture : String
  nutrient_status : String

/-- Soil block of `create_farm_profile_from_data` (v2 lines 775-801) on the
farm-filtered soil rows. -/
def soil_block : List SoilRow → SoilBlock
  | s0 :: _ =>
    let soil_ph_avg := fix_soil_ph_value s0.phh2o_avg
    { soil_ph_avg := soil_ph_avg
      ph_status := classify_ph_status soil_ph_avg
      clay_pct_avg := s0.clay_pct_avg
      sand_pct_avg := s0.sand_pct_avg
      silt_pct_avg := s0.silt_pct_avg
      soc_avg := s0.soc_avg
      cec_avg := s0.cec_avg
      texture := s0.texture
      nutrient_status := s0.nutrient_status }
  | [] =>
    { soil_ph_avg := 7
      ph_status := "Neutral"
      clay_pct_avg := 30
      sand_pct_avg := 40
      silt_pct_avg := 30
      soc_avg := 1.5
      cec_avg := 15
      texture := "Loam"
      nutrient_status := "Moderate" }

/-- `create_farm_profile_from_data` (v2 lines 695-845).  The filtered weather
frame being empty raises `ValueError` (modelled as `Except.error`, fatal for
this farm only); otherwise the profile is assembled exactly as in the source:
weather aggregates, seasonal kharif/rabi sums, stress-day counts, last-30-rows
recent conditions (`farm_weather.tail(30)`, frame order), vegetation means and
health class, and the soil block with corrected pH (or the documented defaults
when the farm has no soil row).  `analysis_date` (a `datetime.now()`
timestamp) is abstracted to `""`. -/
def create_farm_profile_from_data (weather : List WeatherRow)
    (satellite : List SatelliteRow) (soil : List SoilRow) (farm_id : String) :
    Except String EnhancedFarmProfile :=
  match weather.filter (fun r => r.farm_id == farm_id) with
  | [] => .error ("No weather data found for farm " ++ farm_id)
  | w0 :: rest =>
    let farm_weather := w0 :: rest
    let lat := w0.lat
    let lon := w0.lon
    let detected_zone := detect_zone_from_coordinates complete_zone_mappings lat lon
    let total_rainfall := (farm_weather.map (·.precip)).sum
    let rainy_days := (farm_weather.filter (fun r => r.precip > 0)).length
    let avg_temp := listMean (farm_weather.map (·.temp))
    let avg_humidity := listMean (farm_weather.map (·.humidity))
    let kharif_months : List ℕ := [6, 7, 8, 9, 10]
    let rabi_months : List ℕ := [11, 12, 1, 2, 3]
    let kharif_rainfall :=
      ((farm_weather.filter (fun r => r.month ∈ kharif_months)).map (·.precip)).sum
    let rabi_rainfall :=
      ((farm_weather.filter (fun r => r.month ∈ rabi_months)).map (·.precip)).sum
    let heat_stress_days := (farm_weather.filter (fun r => r.temp_max > 35)).length
    let drought_stress_days := (farm_weather.filter (fun r => r.precip == 0)).length
    let temp_variability := sample_variance (farm_weather.map (·.temp))
    let recent_data := farm_weather.drop (farm_weather.length - 30)
    let recent_rainfall := (recent_data.map (·.precip)).sum
    let recent_avg_temp := listMean (recent_data.map (·.temp))
    let recent_avg_humidity := listMean (recent_data.map (·.humidity))
    let farm_satellite :=
      satellite.filter (fun r => r.farm_id == farm_id && r.data_type == "vegetation")
    let veg := vegetation_stats farm_satellite
    let vegetation_health := vegetation_health_class veg.1
    let soilData := soil_block (soil.filter (fun r => r.farm_id == farm_id))
    .ok
      { farm_id := farm_id
        lat := lat
        lon := lon
        total_rainfall := total_rainfall
        rainy_days := rainy_days
        avg_temp := avg_temp
        avg_humidity := avg_humidity
        kharif_rainfall := kharif_rainfall
        rabi_rainfall := rabi_rainfall
        ndvi_mean := veg.1
        evi_mean := veg.2.1
        lai_mean := veg.2.2
        vegetation_health := vegetation_health
        soil_ph_avg := soilData.soil_ph_avg
        clay_pct_avg := soilData.clay_pct_avg
        sand_pct_avg := soilData.sand_pct_avg
        silt_pct_avg := soilData.silt_pct_avg
        soc_avg := soilData.soc_avg
        cec_avg := soilData.cec_avg
        texture := soilData.texture
        nutrient_status := soilData.nutrient_status
        ph_status := soilData.ph_status
        heat_stress_days := heat_stress_days
        drought_stress_days := drought_stress_days
        temp_variability := temp_variability
        recent_rainfall := recent_rainfall
        recent_avg_temp := recent_avg_temp
        recent_avg_humidity := recent_avg_humidity
        analysis_date := ""
        detected_zone := detected_zone }

/-- Helper for pandas `unique()`: first-occurrence-order deduplication, with an
accumulator of already-seen ids. -/
def unique_first_aux : List String → List String → List String
  | [], _ => []
  | a :: l, seen =>
    if a ∈ seen then unique_first_aux l seen
    else a :: unique_first_aux l (a :: seen)

/-- `weather_df['farm_id'].unique()` (v2 line 1097): the distinct farm ids in
first-appearance order. -/
def unique_farm_ids (weather : List WeatherRow) : List String :=
  unique_first_aux (weather.map (·.farm_id)) []

/-- The `for farm_id in farm_ids` loop of `analyze_all_farms` (v2 lines
1100-1123): each farm's profile build + recommendation generation runs inside
`try`; on any per-farm failure the loop logs and `continue`s, otherwise the
farm's result is recorded.  Saving JSON files is I/O and dropped from the
model; the stored value is the recommendation set (built with the default
`top_n = 5`). -/
def analyze_farms_loop (db : VarietyDatabase) (weather : List WeatherRow)
    (satellite : List SatelliteRow) (soil : List SoilRow) :
    List String → List (String × RecommendationSet)
  | [] => []
  | farm_id :: restIds =>
    match create_farm_profile_from_data weather satellite soil farm_id with
    | .error _ => analyze_farms_loop db weather satellite soil restIds
    | .ok fp =>
      (farm_id, generate_recommendations db fp 5) ::
        analyze_farms_loop db weather satellite soil restIds

/-- `analyze_all_farms` (v2 lines 1090-1133): iterate the per-farm loop over
the unique farm ids of the weather frame. -/
def analyze_all_farms (db : VarietyDatabase) (weather : List WeatherRow)
    (satellite : List SatelliteRow) (soil : List SoilRow) :
    List (String × RecommendationSet) :=
  analyze_farms_loop db weather satellite soil (unique_farm_ids weather)

/-! ## Helper notions used by the claim statements -/

/-- Carbon potential of the top (first) entry of a category list, 0 when the
list is empty. -/
def head_carbon : List Recommendation → ℚ
  | [] => 0
  | r :: _ => r.carbon_potential

/-- Carbon potential of the second-ranked entry of a category list, 0 when
absent. -/
def second_carbon : List Recommendation → ℚ
  | _ :: r :: _ => r.carbon_potential
  | _ => 0

/-! ## C1 -/

/-- C1: for every farm profile and every variety (including varieties whose
rainfall, temperature, or pH tolerance range has a bound equal to 0), the
suitability score returned by `calculate_enhanced_suitability_score` (v2) lies
in the closed interval [0, 1]. -/
theorem c1_suitability_score_in_unit_interval
    (fp : EnhancedFarmProfile) (v : Variety) :
    0 ≤ calculate_enhanced_suitability_score_v2 fp v ∧
      calculate_enhanced_suitability_score_v2 fp v ≤ 1 := by
  unfold calculate_enhanced_suitability_score_v2 suitability_score_body
  split
  · norm_num
  · exact ⟨le_max_left 0 _, max_le (by norm_num) (min_le_left 1 _)⟩

/-! ## C3 -/

/-- C3: the soil pH correction satisfies: raw values above 100 are divided by
100, raw values in (14, 100] are divided by 10, raw values in (0, 14] pass
through unchanged; in particular fix(6.9) = 6.9, fix(69.0) = 6.9 and
fix(690.0) = 6.9. -/
theorem c3_fix_soil_ph_piecewise :
    (∀ v : ℚ, 100 < v → fix_soil_ph_value v = v / 100) ∧
    (∀ v : ℚ, 14 < v → v ≤ 100 → fix_soil_ph_value v = v / 10) ∧
    (∀ v : ℚ, 0 < v → v ≤ 14 → fix_soil_ph_value v = v) ∧
    fix_soil_ph_value (69 / 10) = 69 / 10 ∧
    fix_soil_ph_value 69 = 69 / 10 ∧
    fix_soil_ph_value 690 = 69 / 10 := by
  refine ⟨fun v h => ?_, fun v h h' => ?_, fun v h h' => ?_, ?_, ?_, ?_⟩ <;>
    (unfold fix_soil_ph_value; split_ifs <;> first | rfl | linarith)

/-- Witness for C3 at concrete raw values 250 (pH×100 style), 69 (pH×10
style) and 7 (already valid). -/
theorem c3_witness :
    fix_soil_ph_value 250 = 250 / 100 ∧
    fix_soil_ph_value 69 = 69 / 10 ∧
    fix_soil_ph_value 7 = 7 :=
  ⟨c3_fix_soil_ph_piecewise.1 250 (by norm_num),
   c3_fix_soil_ph_piecewise.2.1 69 (by norm_num) (by norm_num),
   c3_fix_soil_ph_piecewise.2.2.1 7 (by norm_num) (by norm_num)⟩

/-! ## C7 -/

/-- C7 counterexample: with an empty zone catalog, `detect_zone_from_coordinates`
does not abort: at the point (0, 0) it returns a string that is one of the
fifteen catalog zone ids (the hardcoded fallback `"Zone_10_Southern_Plateau"`),
refuting both halves of the claim (no fatal configuration error occurs, and a
zone id is returned). -/
theorem c7_counterexample :
    detect_zone_from_coordinates [] 0 0 ∈ complete_zone_mappings.map Zone.id := by
  show "Zone_10_Southern_Plateau" ∈ _
  simp [complete_zone_mappings]

/-- C7 amended: if the zone catalog is empty, `detect_zone_from_coordinates`
does not raise a fatal configuration error; it returns the hardcoded default
zone id `"Zone_10_Southern_Plateau"` for every point. -/
theorem c7_empty_catalog_returns_default (lat lon : ℚ) :
    detect_zone_from_coordinates [] lat lon = "Zone_10_Southern_Plateau" := rfl

/-! ## C5 -/

/-- C5: the blended carbon figure equals 0.4 × (carbon of the top rice entry,
0 if none) + 0.3 × (top crop) + 0.2 × (second crop) + 0.1 × (top
agroforestry); estimated credits are that carbon × 0.85 and estimated revenue
equals credits × 25.0; with empty rice and agroforestry lists the carbon reduces to
0.3 × (top crop) + 0.2 × (second crop) and revenue = carbon × 0.85 × 25.0. -/
theorem c5_realistic_carbon_blend (recs : RecommendationSet) :
    (calculate_realistic_carbon_potential recs).1 =
        0.4 * head_carbon recs.rice + 0.3 * head_carbon recs.crops +
        0.2 * second_carbon recs.crops + 0.1 * head_carbon recs.agroforestry ∧
    (calculate_realistic_carbon_potential recs).2.1 =
        (calculate_realistic_carbon_potential recs).1 * 0.85 ∧
    (calculate_realistic_carbon_potential recs).2.2 =
        (calculate_realistic_carbon_potential recs).1 * 0.85 * 25.0 ∧
    (recs.rice = [] → recs.agroforestry = [] →
      (calculate_realistic_carbon_potential recs).1 =
          0.3 * head_carbon recs.crops + 0.2 * second_carbon recs.crops ∧
      (calculate_realistic_carbon_potential recs).2.2 =
          (calculate_realistic_carbon_potential recs).1 * 0.85 * 25.0) := by
  obtain ⟨rice, agro, crops⟩ := recs
  rcases rice with _ | ⟨r, rs⟩ <;> rcases agro with _ | ⟨a, as⟩ <;>
    rcases crops with _ | ⟨c, _ | ⟨c', cs⟩⟩ <;>
      simp [calculate_realistic_carbon_potential, head_carbon, second_carbon] <;>
        ring_nf

/-! ## Sample data for witness instantiations -/

/-- A concrete farm profile (a plausible Zone-10 farm) used to instantiate
universally quantified theorems at a specific input. -/
def sample_profile : EnhancedFarmProfile where
  farm_id := "farm_1"
  lat := 16
  lon := 77
  total_rainfall := 1000
  rainy_days := 100
  avg_temp := 25
  avg_humidity := 60
  kharif_rainfall := 700
  rabi_rainfall := 200
  ndvi_mean := 0.5
  evi_mean := 0.4
  lai_mean := 1
  vegetation_health := "Good"
  soil_ph_avg := 6.9
  clay_pct_avg := 30
  sand_pct_avg := 40
  silt_pct_avg := 30
  soc_avg := 1.5
  cec_avg := 15
  texture := "Clay Loam"
  nutrient_status := "Moderate"
  ph_status := "Slightly Alkaline"
  heat_stress_days := 10
  drought_stress_days := 50
  temp_variability := 4
  recent_rainfall := 100
  recent_avg_temp := 26
  recent_avg_humidity := 55
  analysis_date := ""
  detected_zone := "Zone_10_Southern_Plateau"

/-- A concrete variety fully compatible with `sample_profile`. -/
def sample_variety : Variety where
  id := "RICE_001"
  name := "Test Rice"
  category := "rice"
  zones := ["Zone_10_Southern_Plateau"]
  carbon_potential := 6
  market_value := "Premium"
  ph_tolerance := (6, 7.5)
  rainfall_range := (600, 1400)
  temp_range := (20, 35)
  water_requirement := "High"
  soil_preference := "Loam"

/-- Two concrete crop recommendation entries for instantiating the carbon
blend. -/
def sample_crop_top : Recommendation where
  variety_id := "CROP_001"
  variety_name := "Crop A"
  category := "crops"
  suitability_score := 1
  carbon_potential := 6
  market_value := "High"
  confidence_level := 0.85
  catalog_index := 0

/-- Second concrete crop recommendation entry. -/
def sample_crop_second : Recommendation where
  variety_id := "CROP_002"
  variety_name := "Crop B"
  category := "crops"
  suitability_score := 0.9
  carbon_potential := 4
  market_value := "High"
  confidence_level := 0.765
  catalog_index := 1

/-- A recommendation set with empty rice and agroforestry categories and two
crop entries. -/
def sample_recs : RecommendationSet where
  rice := []
  agroforestry := []
  crops := [sample_crop_top, sample_crop_second]

/-- Witness for C5's conditional part: on a set with empty rice and
agroforestry categories the blended carbon reduces to
0.3 × (top crop) + 0.2 × (second crop), and revenue is carbon × 0.85 × 25. -/
theorem c5_witness :
    sample_recs.rice = [] ∧ sample_recs.agroforestry = [] ∧
    (calculate_realistic_carbon_potential sample_recs).1 =
        0.3 * head_carbon sample_recs.crops + 0.2 * second_carbon sample_recs.crops ∧
    (calculate_realistic_carbon_potential sample_recs).2.2 =
        (calculate_realistic_carbon_potential sample_recs).1 * 0.85 * 25.0 :=
  ⟨rfl, rfl, ((c5_realistic_carbon_blend sample_recs).2.2.2 rfl rfl).1,
    ((c5_realistic_carbon_blend sample_recs).2.2.2 rfl rfl).2⟩

/-! ## C2 -/

/-- C2: a farm profile whose total rainfall, average temperature and soil pH
all lie inside a variety's tolerance ranges and whose detected zone is in the
variety's zone set scores at least 0.95. -/
theorem c2_exact_match_floor (fp : EnhancedFarmProfile) (v : Variety)
    (hr1 : v.rainfall_range.1 ≤ fp.total_rainfall)
    (hr2 : fp.total_rainfall ≤ v.rainfall_range.2)
    (ht1 : v.temp_range.1 ≤ fp.avg_temp) (ht2 : fp.avg_temp ≤ v.temp_range.2)
    (hp1 : v.ph_tolerance.1 ≤ fp.soil_ph_avg)
    (hp2 : fp.soil_ph_avg ≤ v.ph_tolerance.2)
    (hz : fp.detected_zone ∈ v.zones) :
    0.95 ≤ calculate_enhanced_suitability_score_v2 fp v := by
  have hraise : suitability_score_raises fp v = false := by
    unfold suitability_score_raises range_div_raises
    simp [hr1, hr2, ht1, ht2, hp1, hp2]
  unfold calculate_enhanced_suitability_score_v2
  rw [hraise]
  simp only [Bool.false_eq_true, if_false]
  unfold suitability_score_body range_match ph_range_match
  rw [if_pos hz, if_pos ⟨hr1, hr2⟩, if_pos ⟨ht1, ht2⟩, if_pos ⟨hp1, hp2⟩]
  simp only [recommendation_rules_v2]
  split_ifs <;> norm_num [min_def, max_def]

/-- Witness for C2: `sample_profile` is fully in range for `sample_variety`
and its detected zone is listed, so the score is at least 0.95. -/
theorem c2_witness :
    0.95 ≤ calculate_enhanced_suitability_score_v2 sample_profile sample_variety :=
  c2_exact_match_floor sample_profile sample_variety
    (by norm_num [sample_profile, sample_variety])
    (by norm_num [sample_profile, sample_variety])
    (by norm_num [sample_profile, sample_variety])
    (by norm_num [sample_profile, sample_variety])
    (by norm_num [sample_profile, sample_variety])
    (by norm_num [sample_profile, sample_variety])
    (by simp [sample_profile, sample_variety])

/-! ## C10 -/

/-- C10: on every variety whose rainfall, temperature and pH tolerance bounds
are all nonzero, the v1 and v2 engines' `calculate_enhanced_suitability_score`
agree. -/
theorem c10_v1_v2_score_equivalence (fp : EnhancedFarmProfile) (v : Variety)
    (h1 : v.rainfall_range.1 ≠ 0) (h2 : v.rainfall_range.2 ≠ 0)
    (h3 : v.temp_range.1 ≠ 0) (h4 : v.temp_range.2 ≠ 0)
    (h5 : v.ph_tolerance.1 ≠ 0) (h6 : v.ph_tolerance.2 ≠ 0) :
    calculate_enhanced_suitability_score_v1 fp v =
      calculate_enhanced_suitability_score_v2 fp v := by
  have hraise : suitability_score_raises fp v = false := by
    unfold suitability_score_raises range_div_raises
    split_ifs <;> simp_all
  unfold calculate_enhanced_suitability_score_v1 calculate_enhanced_suitability_score_v2
  rw [hraise]
  rfl

/-- Witness for C10 at the sample inputs (all tolerance bounds nonzero). -/
theorem c10_witness :
    calculate_enhanced_suitability_score_v1 sample_profile sample_variety =
      calculate_enhanced_suitability_score_v2 sample_profile sample_variety :=
  c10_v1_v2_score_equivalence sample_profile sample_variety
    (by norm_num [sample_variety]) (by norm_num [sample_variety])
    (by norm_num [sample_variety]) (by norm_num [sample_variety])
    (by norm_num [sample_variety]) (by norm_num [sample_variety])

/-! ## C8 -/

/-- C8: rows with NDVI ≥ 1.0 are discarded before averaging (the vegetation
statistics of a series equal those of its NDVI-clean subseries); when no valid
row remains — in particular when there are no rows at all — the means default
to (0.2, 0.2, 0.5); and the vegetation-health class of a mean NDVI n is
Excellent for n > 0.6, else Good for n > 0.4, else Fair for n > 0.2, else
Poor. -/
theorem c8_vegetation_cleaning_defaults_and_banding :
    (∀ rows : List SatelliteRow,
      vegetation_stats rows = vegetation_stats (rows.filter (fun r => r.NDVI < 1))) ∧
    (∀ rows : List SatelliteRow,
      rows.filter (fun r => r.NDVI < 1) = [] →
      vegetation_stats rows = (0.2, 0.2, 0.5)) ∧
    (∀ n : ℚ,
      (0.6 < n → vegetation_health_class n = "Excellent") ∧
      (n ≤ 0.6 → 0.4 < n → vegetation_health_class n = "Good") ∧
      (n ≤ 0.4 → 0.2 < n → vegetation_health_class n = "Fair") ∧
      (n ≤ 0.2 → vegetation_health_class n = "Poor")) := by
  have hdefault : ∀ rows : List SatelliteRow,
      rows.filter (fun r => r.NDVI < 1) = [] →
      vegetation_stats rows = (0.2, 0.2, 0.5) := by
    intro rows hf
    by_cases hrows : rows = []
    · simp [hrows, vegetation_stats]
    · simp [vegetation_stats, List.isEmpty_iff, hrows, hf]
  refine ⟨?_, hdefault, ?_⟩
  · intro rows
    by_cases hf : rows.filter (fun r => r.NDVI < 1) = []
    · rw [hdefault rows hf, hf]
      simp [vegetation_stats]
    · have hrows : rows ≠ [] := by
        intro h
        simp [h] at hf
      have hidem : (rows.filter (fun r => r.NDVI < 1)).filter (fun r => r.NDVI < 1) =
          rows.filter (fun r => r.NDVI < 1) :=
        List.filter_eq_self.mpr fun a ha => (List.mem_filter.mp ha).2
      simp [vegetation_stats, List.isEmpty_iff, hrows, hf, hidem]
  · intro n
    refine ⟨fun h => ?_, fun h h' => ?_, fun h h' => ?_, fun h => ?_⟩ <;>
      (unfold vegetation_health_class; split_ifs <;> first | rfl | linarith)

/-- Witness for C8: a single-row series whose NDVI 1.2 is a sensor error
collapses to the defaults, and a mean NDVI of 0.5 is classified Good. -/
theorem c8_witness :
    vegetation_stats [⟨"farm_1", "vegetation", 1.2, 0.3, 0.4⟩] = (0.2, 0.2, 0.5) ∧
    vegetation_health_class 0.5 = "Good" :=
  ⟨c8_vegetation_cleaning_defaults_and_banding.2.1
      [⟨"farm_1", "vegetation", 1.2, 0.3, 0.4⟩] (by norm_num),
   (c8_vegetation_cleaning_defaults_and_banding.2.2 0.5).2.1 (by norm_num) (by norm_num)⟩

/-! ## C6 -/

set_option maxHeartbeats 1000000 in
/-- C6: for every zone of the catalog, detection at the center of that zone's
bounding box returns that zone's id. -/
theorem c6_zone_center_detects_zone (z : Zone) (hz : z ∈ complete_zone_mappings) :
    detect_zone_from_coordinates complete_zone_mappings
      ((z.lat_range.1 + z.lat_range.2) / 2) ((z.lon_range.1 + z.lon_range.2) / 2) =
      z.id := by
  fin_cases hz <;>
    norm_num [detect_zone_from_coordinates, detect_best_match, detect_closest_zone,
      zone_contains, zone_center_dist_sq, complete_zone_mappings]

/-- Witness for C6: detecting at the center (32.5, 77) of Zone 1's bounding box
yields Zone 1. -/
theorem c6_witness :
    detect_zone_from_coordinates complete_zone_mappings
      ((zone_1.lat_range.1 + zone_1.lat_range.2) / 2)
      ((zone_1.lon_range.1 + zone_1.lon_range.2) / 2) = zone_1.id :=
  c6_zone_center_detects_zone zone_1 (by simp [complete_zone_mappings])

/-! ## C9 -/

/-- Success test on a profile-build result (the batch loop records a farm
exactly when this holds). -/
def build_succeeded : Except String EnhancedFarmProfile → Bool
  | .ok _ => true
  | .error _ => false

/-- Membership in the first-occurrence deduplication: an id is kept iff it
occurs in the list and is not among those already seen. -/
lemma mem_unique_first_aux (a : String) (l : List String) :
    ∀ seen, a ∈ unique_first_aux l seen ↔ (a ∈ l ∧ a ∉ seen) := by
  induction l with
  | nil => intro seen; simp [unique_first_aux]
  | cons b t ih =>
    intro seen
    unfold unique_first_aux
    by_cases hb : b ∈ seen
    · rw [if_pos hb, ih seen, List.mem_cons]
      constructor
      · rintro ⟨h1, h2⟩
        exact ⟨Or.inr h1, h2⟩
      · rintro ⟨rfl | h1, h2⟩
        · exact absurd hb h2
        · exact ⟨h1, h2⟩
    · rw [if_neg hb, List.mem_cons, List.mem_cons, ih (b :: seen)]
      by_cases hab : a = b
      · subst hab; simp [hb]
      · simp [hab]

/-- A farm with at least one weather row always builds a profile. -/
lemma build_succeeded_of_weather (weather : List WeatherRow)
    (satellite : List SatelliteRow) (soil : List SoilRow) (farm_id : String)
    (h : weather.filter (fun r => r.farm_id == farm_id) ≠ []) :
    build_succeeded (create_farm_profile_from_data weather satellite soil farm_id) = true := by
  unfold create_farm_profile_from_data
  rcases hef : weather.filter (fun r => r.farm_id == farm_id) with _ | ⟨w0, rest⟩
  · exact absurd hef h
  · rw [hef]; rfl

/-- The farms recorded by the batch loop are exactly the ids whose profile
build succeeds, in order: a failing farm is skipped and the loop goes on. -/
lemma analyze_farms_loop_map_fst (db : VarietyDatabase) (weather : List WeatherRow)
    (satellite : List SatelliteRow) (soil : List SoilRow) (ids : List String) :
    (analyze_farms_loop db weather satellite soil ids).map Prod.fst =
      ids.filter
        (fun fid => build_succeeded (create_farm_profile_from_data weather satellite soil fid)) := by
  induction ids with
  | nil => rfl
  | cons fid rest ih =>
    unfold analyze_farms_loop
    rcases hc : create_farm_profile_from_data weather satellite soil fid with e | fp <;>
      simp [hc, ih, List.filter_cons, build_succeeded]

/-- C9: a farm id with no weather rows fails profile construction with an
error that is fatal only to that farm: the batch loop's recorded farms are
exactly those whose build succeeds (so it continues past failures), and every
farm with at least one weather row appears in the batch result. -/
theorem c9_profile_failure_is_per_farm :
    (∀ (weather : List WeatherRow) (satellite : List SatelliteRow) (soil : List SoilRow)
        (farm_id : String),
      weather.filter (fun r => r.farm_id == farm_id) = [] →
      create_farm_profile_from_data weather satellite soil farm_id =
        .error ("No weather data found for farm " ++ farm_id)) ∧
    (∀ (db : VarietyDatabase) (weather : List WeatherRow) (satellite : List SatelliteRow)
        (soil : List SoilRow) (ids : List String),
      (analyze_farms_loop db weather satellite soil ids).map Prod.fst =
        ids.filter
          (fun fid => build_succeeded (create_farm_profile_from_data weather satellite soil fid))) ∧
    (∀ (db : VarietyDatabase) (weather : List WeatherRow) (satellite : List SatelliteRow)
        (soil : List SoilRow) (farm_id : String),
      farm_id ∈ weather.map (fun r => r.farm_id) →
      farm_id ∈ (analyze_all_farms db weather satellite soil).map Prod.fst) := by
  refine ⟨?_, analyze_farms_loop_map_fst, ?_⟩
  · intro weather satellite soil farm_id h
    unfold create_farm_profile_from_data
    rw [h]
  · intro db weather satellite soil farm_id hmem
    have hfilter : weather.filter (fun r => r.farm_id == farm_id) ≠ [] := by
      obtain ⟨r, hr, hfid⟩ := List.mem_map.mp hmem
      exact List.ne_nil_of_mem (List.mem_filter.mpr ⟨hr, by simp [hfid]⟩)
    unfold analyze_all_farms
    rw [analyze_farms_loop_map_fst]
    refine List.mem_filter.mpr ⟨?_, build_succeeded_of_weather _ _ _ _ hfilter⟩
    exact (mem_unique_first_aux farm_id _ []).mpr ⟨hmem, by simp⟩

/-- A concrete weather row for witness instantiation. -/
def sample_weather_row : WeatherRow where
  farm_id := "farm_1"
  lat := 16
  lon := 77
  month := 7
  precip := 5
  temp := 25
  temp_max := 32
  temp_min := 20
  humidity := 60

/-- A concrete one-variety database for witness instantiation. -/
def sample_db : VarietyDatabase where
  rice_varieties := [sample_variety]
  agroforestry_species := []
  crop_varieties := []

/-- Witness for C9: a farm with no weather rows yields the per-farm error,
and a farm with one weather row appears in the batch result. -/
theorem c9_witness :
    create_farm_profile_from_data [] [] [] "farm_2" =
      .error ("No weather data found for farm " ++ "farm_2") ∧
    "farm_1" ∈ (analyze_all_farms sample_db [sample_weather_row] [] []).map Prod.fst :=
  ⟨c9_profile_failure_is_per_farm.1 [] [] [] "farm_2" rfl,
   c9_profile_failure_is_per_farm.2.2 sample_db [sample_weather_row] [] [] "farm_1"
     (by simp [sample_weather_row])⟩

/-! ## C4 -/

/-- The order C4 asserts of each output list: entries appear with strictly
descending stored score, except that equal scores keep catalog order. -/
def rec_order (a b : Recommendation) : Prop :=
  b.suitability_score < a.suitability_score ∨
    (a.suitability_score = b.suitability_score ∧ a.catalog_index ≤ b.catalog_index)

/-- Banker's rounding never drops below the floor. -/
lemma floor_le_roundHalfToEven (x : ℚ) : ⌊x⌋ ≤ roundHalfToEven x := by
  simp only [roundHalfToEven]
  split_ifs <;> omega

/-- Rounding to three places preserves the 0.70 threshold: the grid point 0.700
is representable, so a value ≥ 0.70 rounds to ≥ 0.70. -/
lemma le_pyRound3_of_le {s : ℚ} (h : (0.70 : ℚ) ≤ s) : (0.70 : ℚ) ≤ pyRound3 s := by
  have h700 : (700 : ℤ) ≤ ⌊s * 1000⌋ := by
    rw [Int.le_floor]
    push_cast
    linarith
  have hge : (700 : ℤ) ≤ roundHalfToEven (s * 1000) :=
    le_trans h700 (floor_le_roundHalfToEven _)
  unfold pyRound3
  rw [le_div_iff₀ (by norm_num : (0 : ℚ) < 1000)]
  calc (0.70 : ℚ) * 1000 = ((700 : ℤ) : ℚ) := by norm_num
    _ ≤ _ := by exact_mod_cast hge

/-- Membership in an insertion step. -/
lemma mem_insert_desc {x a : Recommendation} :
    ∀ {l : List Recommendation}, a ∈ insert_desc x l ↔ a = x ∨ a ∈ l := by
  intro l
  induction l with
  | nil => simp [insert_desc]
  | cons y ys ih =>
    unfold insert_desc
    split_ifs with hy
    · rw [List.mem_cons, ih, List.mem_cons]
      tauto
    · simp [List.mem_cons]

/-- The stable sort permutes membership. -/
lemma mem_sort_desc {a : Recommendation} :
    ∀ {l : List Recommendation}, a ∈ sort_desc l ↔ a ∈ l := by
  intro l
  induction l with
  | nil => simp [sort_desc]
  | cons y ys ih => simp [sort_desc, mem_insert_desc, ih]

/-- Inserting an element that precedes (in catalog order) everything already in
an ordered list keeps the list ordered. -/
lemma pairwise_insert_desc {x : Recommendation} :
    ∀ {l : List Recommendation}, l.Pairwise rec_order →
      (∀ y ∈ l, x.catalog_index ≤ y.catalog_index) →
      (insert_desc x l).Pairwise rec_order := by
  intro l
  induction l with
  | nil =>
    intro _ _
    simp [insert_desc]
  | cons y ys ih =>
    intro hp hidx
    rw [List.pairwise_cons] at hp
    unfold insert_desc
    split_ifs with hy
    · rw [List.pairwise_cons]
      refine ⟨fun z hz => ?_, ih hp.2 fun z hz => hidx z (List.mem_cons_of_mem _ hz)⟩
      rcases mem_insert_desc.mp hz with rfl | hz'
      · exact Or.inl hy
      · exact hp.1 z hz'
    · rw [List.pairwise_cons]
      refine ⟨fun z hz => ?_, List.pairwise_cons.mpr hp⟩
      rcases List.mem_cons.mp hz with rfl | hz'
      · rcases lt_or_eq_of_le (le_of_not_lt hy) with hlt | heq
        · exact Or.inl hlt
        · exact Or.inr ⟨heq.symm, hidx _ (List.mem_cons_self _ _)⟩
      · have hyz := hp.1 z hz'
        have hzy : z.suitability_score ≤ y.suitability_score := by
          rcases hyz with h | ⟨h, _⟩
          · exact le_of_lt h
          · exact le_of_eq h.symm
        rcases lt_or_eq_of_le (le_trans hzy (le_of_not_lt hy)) with hlt | heq
        · exact Or.inl hlt
        · exact Or.inr ⟨heq.symm, hidx z (List.mem_cons_of_mem _ hz')⟩

/-- The stable descending sort of a list whose catalog indices increase yields
a list ordered by `rec_order` (descending score, ties by catalog order). -/
lemma pairwise_sort_desc :
    ∀ {l : List Recommendation},
      l.Pairwise (fun a b => a.catalog_index ≤ b.catalog_index) →
      (sort_desc l).Pairwise rec_order := by
  intro l
  induction l with
  | nil =>
    intro _
    simp [sort_desc]
  | cons a t ih =>
    intro hp
    rw [List.pairwise_cons] at hp
    exact pairwise_insert_desc (ih hp.2) fun y hy => hp.1 y (mem_sort_desc.mp hy)

/-- Every record emitted by the scoring loop stores a rounded score ≥ 0.70. -/
lemma score_category_score_ge (fp : EnhancedFarmProfile) (cat : String) :
    ∀ (vs : List Variety) (i : ℕ) (r : Recommendation),
      r ∈ score_category fp cat vs i → (0.70 : ℚ) ≤ r.suitability_score := by
  intro vs
  induction vs with
  | nil =>
    intro i r hr
    simp [score_category] at hr
  | cons v t ih =>
    intro i r hr
    simp only [score_category] at hr
    split_ifs at hr with hs
    · rcases List.mem_cons.mp hr with rfl | hr'
      · simpa using le_pyRound3_of_le hs
      · exact ih _ r hr'
    · exact ih _ r hr

/-- Every record emitted by the scoring loop started at position `i` has
catalog index at least `i`. -/
lemma score_category_index_ge (fp : EnhancedFarmProfile) (cat : String) :
    ∀ (vs : List Variety) (i : ℕ) (r : Recommendation),
      r ∈ score_category fp cat vs i → i ≤ r.catalog_index := by
  intro vs
  induction vs with
  | nil =>
    intro i r hr
    simp [score_category] at hr
  | cons v t ih =>
    intro i r hr
    simp only [score_category] at hr
    split_ifs at hr with hs
    · rcases List.mem_cons.mp hr with rfl | hr'
      · simp
      · exact le_trans (Nat.le_succ i) (ih _ r hr')
    · exact le_trans (Nat.le_succ i) (ih _ r hr)

/-- The scoring loop emits records in strictly increasing catalog order (here
weakened to non-decreasing, which the sort lemma needs). -/
lemma score_category_pairwise_index (fp : EnhancedFarmProfile) (cat : String) :
    ∀ (vs : List Variety) (i : ℕ),
      (score_category fp cat vs i).Pairwise
        (fun a b => a.catalog_index ≤ b.catalog_index) := by
  intro vs
  induction vs with
  | nil =>
    intro i
    simp [score_category]
  | cons v t ih =>
    intro i
    simp only [score_category]
    split_ifs with hs
    · rw [List.pairwise_cons]
      refine ⟨fun z hz => ?_, ih (i + 1)⟩
      have := score_category_index_ge fp cat t (i + 1) z hz
      simp only
      omega
    · exact ih (i + 1)

/-- Shape of one category list: at most `top_n` entries, all stored scores
≥ 0.70, ordered by descending score with ties in catalog order. -/
lemma category_recommendations_spec (fp : EnhancedFarmProfile) (cat : String)
    (varieties : List Variety) (top_n : ℕ) :
    (category_recommendations fp cat varieties top_n).length ≤ top_n ∧
    (∀ r ∈ category_recommendations fp cat varieties top_n,
      (0.70 : ℚ) ≤ r.suitability_score) ∧
    (category_recommendations fp cat varieties top_n).Pairwise rec_order := by
  unfold category_recommendations
  refine ⟨List.length_take_le _ _, fun r hr => ?_, ?_⟩
  · exact score_category_score_ge fp cat varieties 0 r
      (mem_sort_desc.mp (List.take_subset _ _ hr))
  · exact (pairwise_sort_desc (score_category_pairwise_index fp cat varieties 0)).take

/-- C4: each per-category list returned by `generate_recommendations` has at
most `top_n` entries, contains no entry whose stored suitability score is
below 0.70, and is ordered by descending suitability score with ties broken by
catalog order. -/
theorem c4_recommendation_lists_shape (db : VarietyDatabase)
    (fp : EnhancedFarmProfile) (top_n : ℕ) :
    ((generate_recommendations db fp top_n).rice.length ≤ top_n ∧
      (∀ r ∈ (generate_recommendations db fp top_n).rice,
        (0.70 : ℚ) ≤ r.suitability_score) ∧
      (generate_recommendations db fp top_n).rice.Pairwise rec_order) ∧
    ((generate_recommendations db fp top_n).agroforestry.length ≤ top_n ∧
      (∀ r ∈ (generate_recommendations db fp top_n).agroforestry,
        (0.70 : ℚ) ≤ r.suitability_score) ∧
      (generate_recommendations db fp top_n).agroforestry.Pairwise rec_order) ∧
    ((generate_recommendations db fp top_n).crops.length ≤ top_n ∧
      (∀ r ∈ (generate_recommendations db fp top_n).crops,
        (0.70 : ℚ) ≤ r.suitability_score) ∧
      (generate_recommendations db fp top_n).crops.Pairwise rec_order) :=
  ⟨category_recommendations_spec fp "rice" db.rice_varieties top_n,
   category_recommendations_spec fp "agroforestry" db.agroforestry_species top_n,
   category_recommendations_spec fp "crops" db.crop_varieties top_n⟩

/-- The variety's soil preference `"Loam"` occurs as a substring of the sample
texture `"Clay Loam"` (Python's `in`). -/
lemma loam_in_clay_loam : strContains "Loam" "Clay Loam" = true := by decide

/-- The sample farm/variety pair scores exactly 1.0 (all terms match, bonuses
clamp at the cap). -/
lemma score_sample :
    calculate_enhanced_suitability_score_v2 sample_profile sample_variety = 1 := by
  norm_num [calculate_enhanced_suitability_score_v2, suitability_score_raises,
    range_div_raises, suitability_score_body, range_match, ph_range_match,
    recommendation_rules_v2, loam_in_clay_loam, sample_profile, sample_variety,
    (by decide : ("Moderate" : String) ≠ "Good"),
    (by decide : ("Moderate" : String) ≠ "Excellent"),
    min_def, max_def]

/-- Projection of the sample variety: id. -/
lemma sample_variety_id : sample_variety.id = "RICE_001" := rfl

/-- Projection of the sample variety: display name. -/
lemma sample_variety_name : sample_variety.name = "Test Rice" := rfl

/-- Projection of the sample variety: carbon potential. -/
lemma sample_variety_carbon : sample_variety.carbon_potential = 6 := rfl

/-- Projection of the sample variety: market tier. -/
lemma sample_variety_market : sample_variety.market_value = "Premium" := rfl

/-- Concrete evaluation: the one-variety sample database yields exactly one
rice recommendation with stored score 1.0 and confidence 0.85. -/
lemma generate_sample_rice :
    (generate_recommendations sample_db sample_profile 5).rice =
      [⟨"RICE_001", "Test Rice", "rice", 1, 6, "Premium", 0.85, 0⟩] := by
  norm_num [generate_recommendations, category_recommendations, score_category,
    sort_desc, insert_desc, score_sample, sample_db, sample_variety_id,
    sample_variety_name, sample_variety_carbon, sample_variety_market,
    pyRound3, pyRound4, roundHalfToEven, Int.fract, List.take]

/-- Witness for C4 at the sample database and profile: the rice list respects
the cap and its concrete member stores a score ≥ 0.70. -/
theorem c4_witness :
    (generate_recommendations sample_db sample_profile 5).rice.length ≤ 5 ∧
    (0.70 : ℚ) ≤
      (⟨"RICE_001", "Test Rice", "rice", 1, 6, "Premium", 0.85, 0⟩ :
        Recommendation).suitability_score :=
  ⟨(c4_recommendation_lists_shape sample_db sample_profile 5).1.1,
   (c4_recommendation_lists_shape sample_db sample_profile 5).1.2.1 _
     (by rw [generate_sample_rice]; exact List.mem_singleton.mpr rfl)⟩

end FarmCoPilot
